import Mathlib

/-!
Verification of the session core of the melody repository (src/session.go).

The embedding is a shallow one:

* Message kinds are the gorilla/websocket integer constants that the source
  compares against (`TextMessage = 1`, `BinaryMessage = 2`, `CloseMessage = 8`,
  `PingMessage = 9`).
* An `envelope` is the `envelope` struct of the source: a kind `t` and a byte
  payload `msg` (bytes as `List Nat`).
* `SessionState` carries the fields of `Session` that the producer-side
  operations touch, plus observation logs: `connWrites` records successful
  raw writes to the transport and `errors` records invocations of the shared
  error handler, in order.  The mailbox channel `output` is a bounded FIFO
  list with capacity `cap` (the configured message buffer size); a
  non-blocking `select` send succeeds exactly when the buffer has a free slot.
* The outbound pump (`writePump`) is modelled as a function from the sequence
  of `select` outcomes it observes (mailbox receive / closed mailbox / ticker
  fire, with the success of the corresponding raw write) to the trace of its
  observable actions (transport writes and handler invocations).
* The racy `close` transition is modelled separately as a two-thread
  interleaving machine (`CloseState`, `closeStep`, `runClose`): the
  `closed()` check (a read of `open` under the reader lock) is one atomic
  step, and the writer-lock-protected block is one atomic step, exactly the
  atomicity that the locks in the source provide.
-/

namespace Melody

/-- gorilla/websocket message-type constant for text messages. -/
def TextMessage : Nat := 1

/-- gorilla/websocket message-type constant for binary messages. -/
def BinaryMessage : Nat := 2

/-- gorilla/websocket message-type constant for close messages. -/
def CloseMessage : Nat := 8

/-- gorilla/websocket message-type constant for ping messages. -/
def PingMessage : Nat := 9

/-- The `envelope` struct of the source: a websocket message type and a payload. -/
structure envelope where
  t : Nat
  msg : List Nat
deriving DecidableEq

/-- The error values declared at the top of src/session.go. -/
inductive MErr where
  | ErrWriteToClosedSession
  | ErrMessageBufferFull
  | ErrSessionClosed
  | ErrSessionAlreadyClosed
deriving DecidableEq

/-- The `Session` state visible to the producer-side operations.
`openFlag` is the `open` field of the source; `output` is the buffered mailbox
channel (FIFO, capacity `cap`); `outputChanClosed` and `connClosed` record
whether `close(s.output)` and `s.conn.Close()` have run; `connWrites` logs
successful `conn.WriteMessage` calls and `errors` logs invocations of
`melody.errorHandler`, in order. -/
structure SessionState where
  openFlag : Bool
  cap : Nat
  output : List envelope
  outputChanClosed : Bool
  connClosed : Bool
  connWrites : List envelope
  errors : List MErr
deriving DecidableEq

/-- `Session.closed`: reads the `open` flag (under the reader lock) and
negates it. -/
def closed (s : SessionState) : Bool := !s.openFlag

/-- `Session.writeMessage`: if the session is closed, report
`ErrWriteToClosedSession` to the error handler and return it; otherwise
attempt a non-blocking send into the buffered `output` channel, which
succeeds exactly when a slot is free, else report and return
`ErrMessageBufferFull`. -/
def writeMessage (s : SessionState) (message : envelope) :
    SessionState × Option MErr :=
  if closed s then
    ({ s with errors := s.errors ++ [MErr.ErrWriteToClosedSession] },
      some MErr.ErrWriteToClosedSession)
  else if s.output.length < s.cap then
    ({ s with output := s.output ++ [message] }, none)
  else
    ({ s with errors := s.errors ++ [MErr.ErrMessageBufferFull] },
      some MErr.ErrMessageBufferFull)

/-- `Session.writeRaw`: if the session is closed, return
`ErrWriteToClosedSession` (without invoking the error handler); otherwise
write the envelope to the transport.  The transport write itself is assumed
to succeed in this state model; the pump model below carries an explicit
success flag for raw writes instead. -/
def writeRaw (s : SessionState) (message : envelope) :
    SessionState × Option MErr :=
  if closed s then (s, some MErr.ErrWriteToClosedSession)
  else ({ s with connWrites := s.connWrites ++ [message] }, none)

/-- `Session.ping`: performs a raw write of a ping envelope and discards the
returned error. -/
def ping (s : SessionState) : SessionState :=
  (writeRaw s ⟨PingMessage, []⟩).1

/-- `Session.Write`: returns `ErrSessionClosed` when the session is closed;
otherwise enqueues a text envelope via `writeMessage` and reports the payload
length on success, `0` together with the error on failure. -/
def Write (s : SessionState) (msg : List Nat) :
    SessionState × Nat × Option MErr :=
  if closed s then (s, 0, some MErr.ErrSessionClosed)
  else
    match writeMessage s ⟨TextMessage, msg⟩ with
    | (s', none) => (s', msg.length, none)
    | (s', some e) => (s', 0, some e)

/-- `Session.WriteBinary`: returns `ErrSessionClosed` when the session is
closed; otherwise enqueues a binary envelope via `writeMessage`. -/
def WriteBinary (s : SessionState) (msg : List Nat) :
    SessionState × Option MErr :=
  if closed s then (s, some MErr.ErrSessionClosed)
  else writeMessage s ⟨BinaryMessage, msg⟩

/-- `Session.Close`: returns `ErrSessionAlreadyClosed` when the session is
closed; otherwise enqueues a close envelope with an empty payload. -/
def Close (s : SessionState) : SessionState × Option MErr :=
  if closed s then (s, some MErr.ErrSessionAlreadyClosed)
  else writeMessage s ⟨CloseMessage, []⟩

/-- `Session.CloseWithMsg`: returns `ErrSessionAlreadyClosed` when the
session is closed; otherwise enqueues a close envelope carrying the supplied
payload. -/
def CloseWithMsg (s : SessionState) (msg : List Nat) :
    SessionState × Option MErr :=
  if closed s then (s, some MErr.ErrSessionAlreadyClosed)
  else writeMessage s ⟨CloseMessage, msg⟩

/-- `Session.IsClosed`. -/
def IsClosed (s : SessionState) : Bool := closed s

/-!  The outbound pump (`Session.writePump`).

Each iteration of the select loop of the pump observes one event:
* `recv e wok` — an envelope `e` was received from the mailbox channel
  (`ok = true` in the source); `wok` records whether the subsequent
  `writeRaw` returned `nil` (`wok = false` covers both a transport write
  error and a concurrent close of the session);
* `closedChan` — the mailbox channel was closed and drained
  (`ok = false` in the source);
* `tick wok` — the heartbeat ticker fired; `ping()` performs a raw write of
  a ping envelope and discards its error, `wok` records whether that raw
  write succeeded.

The observable behaviour of the pump is the trace of transport writes and handler
invocations it performs. -/

/-- One outcome of the select loop of the pump. -/
inductive PumpEvent where
  | recv (e : envelope) (wok : Bool)
  | closedChan
  | tick (wok : Bool)
deriving DecidableEq

/-- One observable action of the pump: a successful transport write, an
invocation of a message-sent handler, or an invocation of the error
handler. -/
inductive PumpAct where
  | wrote (e : envelope)
  | sentHandler (msg : List Nat)
  | sentHandlerBinary (msg : List Nat)
  | errHandler
deriving DecidableEq

/-- The message-sent handler invocations the pump performs after a
successful write of a non-close envelope (the two `if` statements at the end
of the loop body). -/
def handlerActs (e : envelope) : List PumpAct :=
  (if e.t == TextMessage then [PumpAct.sentHandler e.msg] else []) ++
  (if e.t == BinaryMessage then [PumpAct.sentHandlerBinary e.msg] else [])

/-- `Session.writePump`: drains the mailbox, interleaving heartbeat pings.
On a failed raw write it invokes the error handler and terminates; on a
successful write of a close envelope it terminates immediately; on a
successful write of a text/binary envelope it invokes the corresponding
message-sent handler; a closed mailbox terminates it cleanly. -/
def writePump : List PumpEvent → List PumpAct
  | [] => []
  | PumpEvent.closedChan :: _ => []
  | PumpEvent.recv e wok :: rest =>
    if wok then
      if e.t == CloseMessage then [PumpAct.wrote e]
      else PumpAct.wrote e :: (handlerActs e ++ writePump rest)
    else [PumpAct.errHandler]
  | PumpEvent.tick wok :: rest =>
    (if wok then [PumpAct.wrote ⟨PingMessage, []⟩] else []) ++ writePump rest

/-- The non-ping envelopes a pump trace wrote to the transport, in order. -/
def writesOf (acts : List PumpAct) : List envelope :=
  acts.filterMap fun a =>
    match a with
    | PumpAct.wrote e => if e.t == PingMessage then none else some e
    | _ => none

/-- The envelopes delivered by the mailbox in an event sequence, in FIFO
enqueue order. -/
def recvEnvelopes (evts : List PumpEvent) : List envelope :=
  evts.filterMap fun ev =>
    match ev with
    | PumpEvent.recv e _ => some e
    | _ => none

/-- An event sequence in which every mailbox delivery is an accepted user
envelope (text or binary) whose raw write succeeds, and the mailbox is not
closed: the setting of the FIFO-ordering guarantee. -/
def evAccepted : PumpEvent → Bool
  | PumpEvent.recv e wok => wok && (e.t == TextMessage || e.t == BinaryMessage)
  | PumpEvent.tick _ => true
  | PumpEvent.closedChan => false

/-- Payloads passed to the plain message-sent handler in a pump trace. -/
def sentTexts (acts : List PumpAct) : List (List Nat) :=
  acts.filterMap fun a =>
    match a with
    | PumpAct.sentHandler m => some m
    | _ => none

/-- Payloads of successfully written text envelopes in a pump trace. -/
def writtenTexts (acts : List PumpAct) : List (List Nat) :=
  acts.filterMap fun a =>
    match a with
    | PumpAct.wrote e => if e.t == TextMessage then some e.msg else none
    | _ => none

/-- Payloads passed to the binary message-sent handler in a pump trace. -/
def sentBinaries (acts : List PumpAct) : List (List Nat) :=
  acts.filterMap fun a =>
    match a with
    | PumpAct.sentHandlerBinary m => some m
    | _ => none

/-- Payloads of successfully written binary envelopes in a pump trace. -/
def writtenBinaries (acts : List PumpAct) : List (List Nat) :=
  acts.filterMap fun a =>
    match a with
    | PumpAct.wrote e => if e.t == BinaryMessage then some e.msg else none
    | _ => none

/-!  The `close` transition as a two-thread interleaving machine.

`Session.close` is

    if !s.closed() {
        s.rwmutex.Lock()
        s.open = false
        s.conn.Close()
        close(s.output)
        s.rwmutex.Unlock()
    }

The `closed()` call reads `open` under the reader lock: one atomic step.
The writer-lock-protected block is one atomic step.  Nothing orders the
check of one thread before the locked block of another, so two invocations
interleave as: check, check, locked block, locked block. -/

/-- Program counter of one thread executing `Session.close`: before the
`closed()` check, past a check that observed the session open (about to
acquire the writer lock), or finished. -/
inductive ClosePC where
  | start
  | willLock
  | done
deriving DecidableEq

/-- Shared state of two threads racing through `Session.close`:
the `open` flag, how many times `conn.Close()` ran, whether
`close(s.output)` ran, whether a second `close(s.output)` ran (which in Go
is a run-time panic), and the two program counters. -/
structure CloseState where
  openFlag : Bool
  connCloseCount : Nat
  outputChanClosed : Bool
  panicked : Bool
  pc0 : ClosePC
  pc1 : ClosePC
deriving DecidableEq

/-- Program counter of thread `i`. -/
def pcOf (s : CloseState) (i : Bool) : ClosePC :=
  if i then s.pc1 else s.pc0

/-- Set the program counter of thread `i`. -/
def setPc (s : CloseState) (i : Bool) (p : ClosePC) : CloseState :=
  if i then { s with pc1 := p } else { s with pc0 := p }

/-- One atomic step of thread `i` in `Session.close`: either the `closed()`
check (under the reader lock), or the writer-lock-protected block that
clears the flag, closes the transport and closes the mailbox channel. -/
def closeStep (s : CloseState) (i : Bool) : CloseState :=
  match pcOf s i with
  | ClosePC.start => setPc s i (if s.openFlag then ClosePC.willLock else ClosePC.done)
  | ClosePC.willLock =>
    setPc { s with openFlag := false,
                   connCloseCount := s.connCloseCount + 1,
                   panicked := s.panicked || s.outputChanClosed,
                   outputChanClosed := true } i ClosePC.done
  | ClosePC.done => s

/-- Run a schedule (a list of thread ids) from a state. -/
def runClose : List Bool → CloseState → CloseState
  | [], s => s
  | i :: rest, s => runClose rest (closeStep s i)

/-- The initial state: session open, transport and mailbox not closed, both
threads about to enter `Session.close`. -/
def initClose : CloseState :=
  ⟨true, 0, false, false, ClosePC.start, ClosePC.start⟩

/-!  The per-session key/value store (`Set`, `Get`, `MustGet`).

A Go `interface{}` value is `Option α` (`none` is the nil interface). -/

/-- Modelled from the spec: the request-scoped key/value context built by
`newRequestWithContextKey` (not under src/) — `Set` derives a new context
binding the key to the value, and a context lookup returns the most recent
binding for the key, or nil when the key was never bound.  Represented as
the list of bindings, most recent first. -/
def Ctx (α : Type) : Type := List (String × Option α)

/-- Lookup in the derived-context chain: the value of the most recent
binding of `k`, nil (`none`) when `k` is absent — exactly the Go method
`Context().Value`, which also returns nil when the stored value is the nil
interface. -/
def ctxValue (c : Ctx α) (k : String) : Option α :=
  match c.find? (fun p => p.1 == k) with
  | some p => p.2
  | none => none

/-- `Session.Set`: stores a key/value pair by deriving a new request
context. -/
def Set (c : Ctx α) (k : String) (v : Option α) : Ctx α :=
  (k, v) :: c

/-- `Session.Get`: returns `(value, value != nil)`. -/
def Get (c : Ctx α) (k : String) : Option α × Bool :=
  let value := ctxValue c k
  (value, value.isSome)

/-- Result of `Session.MustGet`: the value, or a panic. -/
inductive MustGetResult (α : Type) where
  | value (a : α)
  | panicked
deriving DecidableEq

/-- `Session.MustGet`: returns the value when `Get` reports it exists,
otherwise panics. -/
def MustGet (c : Ctx α) (k : String) : MustGetResult α :=
  match Get c k with
  | (some a, true) => MustGetResult.value a
  | _ => MustGetResult.panicked

/-- Helper: `writeMessage` only ever touches the mailbox list and the
error-handler log; the open flag, the transport, the closed markers and the
capacity are untouched. -/
theorem writeMessage_frame (s : SessionState) (m : envelope) :
    (writeMessage s m).1.openFlag = s.openFlag ∧
    (writeMessage s m).1.connClosed = s.connClosed ∧
    (writeMessage s m).1.outputChanClosed = s.outputChanClosed ∧
    (writeMessage s m).1.connWrites = s.connWrites ∧
    (writeMessage s m).1.cap = s.cap := by
  by_cases h1 : closed s
  · simp [writeMessage, h1]
  · by_cases h2 : s.output.length < s.cap <;> simp [writeMessage, h1, h2]

/-- C4: on a closed session, `Write` and `WriteBinary` return
`ErrSessionClosed` and `Close` and `CloseWithMsg` return
`ErrSessionAlreadyClosed`, each leaving the session state (including the
mailbox and the error-handler log) exactly unchanged; all four are total
functions of the state, so they neither block nor panic. -/
theorem closed_session_ops_fail (s : SessionState) (msg : List Nat)
    (h : closed s = true) :
    Write s msg = (s, 0, some MErr.ErrSessionClosed) ∧
    WriteBinary s msg = (s, some MErr.ErrSessionClosed) ∧
    Close s = (s, some MErr.ErrSessionAlreadyClosed) ∧
    CloseWithMsg s msg = (s, some MErr.ErrSessionAlreadyClosed) := by
  simp [Write, WriteBinary, Close, CloseWithMsg, h]

/-- C4 witness: the four calls evaluated on a concrete closed session. -/
theorem closed_session_ops_fail_witness :
    closed ⟨false, 4, [], false, false, [], []⟩ = true ∧
    Write ⟨false, 4, [], false, false, [], []⟩ [1, 2] =
      (⟨false, 4, [], false, false, [], []⟩, 0, some MErr.ErrSessionClosed) :=
  ⟨by decide, (closed_session_ops_fail ⟨false, 4, [], false, false, [], []⟩ [1, 2] (by decide)).1⟩

/-- C5: on an open session whose mailbox has no free slot, `Write` fails
fast with `ErrMessageBufferFull` (reporting it to the error handler); the
operation is a total function of the state, so it never blocks. -/
theorem send_full_buffer (s : SessionState) (msg : List Nat)
    (hopen : closed s = false) (hfull : s.cap ≤ s.output.length) :
    Write s msg =
      ({ s with errors := s.errors ++ [MErr.ErrMessageBufferFull] }, 0,
        some MErr.ErrMessageBufferFull) := by
  simp [Write, writeMessage, hopen, Nat.not_lt.mpr hfull]

/-- C5 witness: mailbox capacity 2, three `Write` calls before the pump
drains — the first two succeed with the payload length, the third returns
`ErrMessageBufferFull`. -/
theorem send_full_buffer_witness :
    Write ⟨true, 2, [], false, false, [], []⟩ [1] =
      (⟨true, 2, [⟨TextMessage, [1]⟩], false, false, [], []⟩, 1, none) ∧
    Write ⟨true, 2, [⟨TextMessage, [1]⟩], false, false, [], []⟩ [2] =
      (⟨true, 2, [⟨TextMessage, [1]⟩, ⟨TextMessage, [2]⟩], false, false, [], []⟩, 1, none) ∧
    Write ⟨true, 2, [⟨TextMessage, [1]⟩, ⟨TextMessage, [2]⟩], false, false, [], []⟩ [3] =
      (⟨true, 2, [⟨TextMessage, [1]⟩, ⟨TextMessage, [2]⟩], false, false, [],
        [MErr.ErrMessageBufferFull]⟩, 0, some MErr.ErrMessageBufferFull) :=
  ⟨by decide, by decide,
    send_full_buffer ⟨true, 2, [⟨TextMessage, [1]⟩, ⟨TextMessage, [2]⟩], false, false, [], []⟩
      [3] (by decide) (by decide)⟩

/-- C6: on an open session with a free mailbox slot, `Write` enqueues a
text envelope carrying the payload and returns the payload length with no
error; and whenever `Write` returns an error, the reported byte count is
zero. -/
theorem send_accepts_payload (s : SessionState) (msg : List Nat)
    (hopen : closed s = false) (hfree : s.output.length < s.cap) :
    Write s msg =
      ({ s with output := s.output ++ [⟨TextMessage, msg⟩] }, msg.length, none) ∧
    ∀ s2 : SessionState, ∀ m : List Nat, ∀ e : MErr,
      (Write s2 m).2.2 = some e → (Write s2 m).2.1 = 0 := by
  constructor
  · simp [Write, writeMessage, hopen, hfree]
  · intro s2 m e h
    by_cases hc : closed s2
    · simp [Write, hc]
    · rcases hw : writeMessage s2 ⟨TextMessage, m⟩ with ⟨s3, e3⟩
      cases e3 <;> simp [Write, hc, hw] at h ⊢

/-- C6 witness: a concrete accepted send. -/
theorem send_accepts_payload_witness :
    closed ⟨true, 4, [], false, false, [], []⟩ = false ∧
    Write ⟨true, 4, [], false, false, [], []⟩ [5, 6] =
      (⟨true, 4, [⟨TextMessage, [5, 6]⟩], false, false, [], []⟩, 2, none) :=
  ⟨by decide, (send_accepts_payload ⟨true, 4, [], false, false, [], []⟩ [5, 6]
      (by decide) (by decide)).1⟩

/-- C7: on an open session with a free mailbox slot, `Close` only enqueues
one close envelope with empty payload and `CloseWithMsg` only enqueues one
close envelope with the supplied payload; and on any session state at all,
neither call changes the open flag, closes the transport, or closes the
mailbox channel. -/
theorem close_only_enqueues (s : SessionState) (msg : List Nat)
    (hopen : closed s = false) (hfree : s.output.length < s.cap) :
    Close s = ({ s with output := s.output ++ [⟨CloseMessage, []⟩] }, none) ∧
    CloseWithMsg s msg =
      ({ s with output := s.output ++ [⟨CloseMessage, msg⟩] }, none) ∧
    ∀ s2 : SessionState, ∀ m : List Nat,
      (Close s2).1.openFlag = s2.openFlag ∧
      (Close s2).1.connClosed = s2.connClosed ∧
      (Close s2).1.outputChanClosed = s2.outputChanClosed ∧
      (CloseWithMsg s2 m).1.openFlag = s2.openFlag ∧
      (CloseWithMsg s2 m).1.connClosed = s2.connClosed ∧
      (CloseWithMsg s2 m).1.outputChanClosed = s2.outputChanClosed := by
  refine ⟨by simp [Close, writeMessage, hopen, hfree],
          by simp [CloseWithMsg, writeMessage, hopen, hfree], ?_⟩
  intro s2 m
  by_cases hc : closed s2
  · simp [Close, CloseWithMsg, hc]
  · have h1 := writeMessage_frame s2 ⟨CloseMessage, []⟩
    have h2 := writeMessage_frame s2 ⟨CloseMessage, m⟩
    simp [Close, CloseWithMsg, hc]
    exact ⟨h1.1, h1.2.1, h1.2.2.1, h2.1, h2.2.1, h2.2.2.1⟩

/-- C7 witness: a concrete `Close` on an open session. -/
theorem close_only_enqueues_witness :
    Close ⟨true, 4, [], false, false, [], []⟩ =
      (⟨true, 4, [⟨CloseMessage, []⟩], false, false, [], []⟩, none) :=
  (close_only_enqueues ⟨true, 4, [], false, false, [], []⟩ [] (by decide) (by decide)).1

/-- C2 counterexample: on a concrete closed session, `Write` fails to
enqueue (it returns `ErrSessionClosed`) yet the error handler is never
invoked — its log stays empty — refuting the claim that every failed
`Send*`/`Close*` call invokes the shared error handler before returning. -/
theorem send_closed_skips_error_handler_cex :
    (Write ⟨false, 4, [], false, false, [], []⟩ [1]).2.2 = some MErr.ErrSessionClosed ∧
    (Write ⟨false, 4, [], false, false, [], []⟩ [1]).1.errors = [] ∧
    (Close ⟨false, 4, [], false, false, [], []⟩).2 = some MErr.ErrSessionAlreadyClosed ∧
    (Close ⟨false, 4, [], false, false, [], []⟩).1.errors = [] := by decide

/-- C2 amended: a `Send*`/`Close*` call that fails because the mailbox is
full invokes the shared error handler with `ErrMessageBufferFull` before
returning it; a call rejected by the initial closed-check returns
`ErrSessionClosed` / `ErrSessionAlreadyClosed` without invoking the error
handler. -/
theorem enqueue_failure_error_handler (s : SessionState) (msg : List Nat)
    (hopen : closed s = false) (hfull : s.cap ≤ s.output.length) :
    Write s msg =
      ({ s with errors := s.errors ++ [MErr.ErrMessageBufferFull] }, 0,
        some MErr.ErrMessageBufferFull) ∧
    WriteBinary s msg =
      ({ s with errors := s.errors ++ [MErr.ErrMessageBufferFull] },
        some MErr.ErrMessageBufferFull) ∧
    Close s =
      ({ s with errors := s.errors ++ [MErr.ErrMessageBufferFull] },
        some MErr.ErrMessageBufferFull) ∧
    CloseWithMsg s msg =
      ({ s with errors := s.errors ++ [MErr.ErrMessageBufferFull] },
        some MErr.ErrMessageBufferFull) ∧
    ∀ s2 : SessionState, ∀ m : List Nat, closed s2 = true →
      (Write s2 m).1.errors = s2.errors ∧
      (WriteBinary s2 m).1.errors = s2.errors ∧
      (Close s2).1.errors = s2.errors ∧
      (CloseWithMsg s2 m).1.errors = s2.errors := by
  have hnl := Nat.not_lt.mpr hfull
  refine ⟨by simp [Write, writeMessage, hopen, hnl],
          by simp [WriteBinary, writeMessage, hopen, hnl],
          by simp [Close, writeMessage, hopen, hnl],
          by simp [CloseWithMsg, writeMessage, hopen, hnl], ?_⟩
  intro s2 m hc
  simp [Write, WriteBinary, Close, CloseWithMsg, hc]

/-- C2 amended witness: a full mailbox on an open session, evaluated. -/
theorem enqueue_failure_error_handler_witness :
    closed ⟨true, 1, [⟨TextMessage, []⟩], false, false, [], []⟩ = false ∧
    Write ⟨true, 1, [⟨TextMessage, []⟩], false, false, [], []⟩ [7] =
      (⟨true, 1, [⟨TextMessage, []⟩], false, false, [], [MErr.ErrMessageBufferFull]⟩, 0,
        some MErr.ErrMessageBufferFull) :=
  ⟨by decide,
    (enqueue_failure_error_handler ⟨true, 1, [⟨TextMessage, []⟩], false, false, [], []⟩ [7]
      (by decide) (by decide)).1⟩

/-- C9 counterexample: on a concrete closed session, a raw write returns
`ErrWriteToClosedSession` but the error handler is never invoked (its log
stays empty), and the heartbeat `ping` discards the error outright, leaving
the state bit-for-bit unchanged — refuting the claim that a raw write after
close surfaces the error both to the caller and to the error handler. -/
theorem ping_closed_skips_error_handler_cex :
    (writeRaw ⟨false, 4, [], false, false, [], []⟩ ⟨PingMessage, []⟩).2 =
      some MErr.ErrWriteToClosedSession ∧
    (writeRaw ⟨false, 4, [], false, false, [], []⟩ ⟨PingMessage, []⟩).1.errors = [] ∧
    ping ⟨false, 4, [], false, false, [], []⟩ = ⟨false, 4, [], false, false, [], []⟩ := by
  decide

/-- C9 amended: after close, an enqueue (`writeMessage`) returns
`ErrWriteToClosedSession` to its caller and reports it to the error
handler, while a raw write (`writeRaw`) returns `ErrWriteToClosedSession`
to its caller without reporting it, and the heartbeat `ping` discards the
error entirely, leaving the session state unchanged. -/
theorem write_after_close (s : SessionState) (m : envelope)
    (h : closed s = true) :
    writeMessage s m =
      ({ s with errors := s.errors ++ [MErr.ErrWriteToClosedSession] },
        some MErr.ErrWriteToClosedSession) ∧
    writeRaw s m = (s, some MErr.ErrWriteToClosedSession) ∧
    ping s = s := by
  simp [writeMessage, writeRaw, ping, h]

/-- C9 amended witness: the three operations evaluated on a concrete closed
session. -/
theorem write_after_close_witness :
    closed ⟨false, 4, [], false, false, [], []⟩ = true ∧
    writeMessage ⟨false, 4, [], false, false, [], []⟩ ⟨TextMessage, [1]⟩ =
      (⟨false, 4, [], false, false, [], [MErr.ErrWriteToClosedSession]⟩,
        some MErr.ErrWriteToClosedSession) :=
  ⟨by decide,
    (write_after_close ⟨false, 4, [], false, false, [], []⟩ ⟨TextMessage, [1]⟩ (by decide)).1⟩

/-- C1: evidence that the close transition is not atomic.  Two threads run
`Session.close`; in the schedule where both evaluate the `closed()` check
before either acquires the writer lock, both perform the transition: the
transport is closed twice and the mailbox channel is closed twice (in Go a
run-time panic) — the claim that exactly one invocation ever closes the
transport and the mailbox fails.  Under the sequential schedule the second
invocation observes the session already closed and performs no effect, so
only the concurrent case diverges. -/
theorem close_race_double_close :
    (runClose [false, true, false, true] initClose).connCloseCount = 2 ∧
    (runClose [false, true, false, true] initClose).panicked = true ∧
    (runClose [false, true, false, true] initClose).pc0 = ClosePC.done ∧
    (runClose [false, true, false, true] initClose).pc1 = ClosePC.done ∧
    (runClose [false, false, true, true] initClose).connCloseCount = 1 ∧
    (runClose [false, false, true, true] initClose).panicked = false := by decide

/-- C10: `Get` reports existence exactly when the looked-up value is
non-nil, and storing a nil value for a key makes `Get` report the key
absent and makes `MustGet` panic for it. -/
theorem get_nonnil_existence (c : Ctx Nat) (k : String) :
    ((Get c k).2 = true ↔ ctxValue c k ≠ none) ∧
    Get (Set c k none) k = (none, false) ∧
    MustGet (Set c k none) k = MustGetResult.panicked := by
  have hfind : (Set c k none).find? (fun p => p.1 == k) = some (k, none) :=
    List.find?_cons_of_pos _ (by simp)
  refine ⟨?_, ?_, ?_⟩
  · cases h : ctxValue c k <;> simp [Get, h]
  · simp [Get, ctxValue, hfind]
  · simp [MustGet, Get, ctxValue, hfind]

/-- C3: for every run of the outbound pump in which each mailbox delivery
is an accepted user envelope (text or binary) whose raw write succeeds, the
non-ping envelopes written to the transport are exactly the envelopes
delivered by the mailbox, in FIFO enqueue order: heartbeat pings are
interleaved but never reorder user envelopes relative to each other. -/
theorem writePump_fifo (evts : List PumpEvent)
    (h : evts.all evAccepted = true) :
    writesOf (writePump evts) = recvEnvelopes evts := by
  induction evts with
  | nil => rfl
  | cons ev rest ih =>
    rw [List.all_cons, Bool.and_eq_true] at h
    cases ev with
    | closedChan => simp [evAccepted] at h
    | tick wok =>
      cases wok <;>
        simpa [writePump, writesOf, recvEnvelopes, PingMessage] using ih h.2
    | recv e wok =>
      have hw : wok = true := by
        rcases h with ⟨h1, _⟩
        cases wok
        · simp [evAccepted] at h1
        · rfl
      have ht : e.t = TextMessage ∨ e.t = BinaryMessage := by
        rcases h with ⟨h1, _⟩
        rw [hw] at h1
        simpa [evAccepted] using h1
      subst hw
      rcases ht with ht | ht <;>
        simpa [writePump, handlerActs, writesOf, recvEnvelopes, ht,
          TextMessage, BinaryMessage, CloseMessage, PingMessage] using ih h.2

/-- C3 witness: a concrete run with a ping interleaved between two accepted
user envelopes. -/
theorem writePump_fifo_witness :
    ([PumpEvent.recv ⟨TextMessage, [10]⟩ true, PumpEvent.tick true,
      PumpEvent.recv ⟨BinaryMessage, [20]⟩ true].all evAccepted = true) ∧
    writesOf (writePump [PumpEvent.recv ⟨TextMessage, [10]⟩ true, PumpEvent.tick true,
        PumpEvent.recv ⟨BinaryMessage, [20]⟩ true]) =
      recvEnvelopes [PumpEvent.recv ⟨TextMessage, [10]⟩ true, PumpEvent.tick true,
        PumpEvent.recv ⟨BinaryMessage, [20]⟩ true] :=
  ⟨by decide,
    writePump_fifo [PumpEvent.recv ⟨TextMessage, [10]⟩ true, PumpEvent.tick true,
      PumpEvent.recv ⟨BinaryMessage, [20]⟩ true] (by decide)⟩

/-- C8: after a successful write of a close envelope the pump terminates at
once — it performs no further action and in particular invokes no
message-sent handler for the close envelope; and over every run of the
pump, the plain and binary message-sent handlers are invoked exactly for
the payloads of the successfully written text and binary envelopes, in
order. -/
theorem writePump_close_terminates :
    (∀ e : envelope, ∀ rest : List PumpEvent, e.t = CloseMessage →
      writePump (PumpEvent.recv e true :: rest) = [PumpAct.wrote e]) ∧
    ∀ evts : List PumpEvent,
      sentTexts (writePump evts) = writtenTexts (writePump evts) ∧
      sentBinaries (writePump evts) = writtenBinaries (writePump evts) := by
  constructor
  · intro e rest h
    simp [writePump, h]
  · intro evts
    induction evts with
    | nil => exact ⟨rfl, rfl⟩
    | cons ev rest ih =>
      cases ev with
      | closedChan => exact ⟨rfl, rfl⟩
      | tick wok =>
        cases wok <;>
          simpa [writePump, sentTexts, writtenTexts, sentBinaries, writtenBinaries,
            PingMessage, TextMessage, BinaryMessage] using ih
      | recv e wok =>
        cases wok with
        | false => simp [writePump, sentTexts, writtenTexts, sentBinaries, writtenBinaries]
        | true =>
          by_cases hc : e.t = CloseMessage
          · simp [writePump, hc, sentTexts, writtenTexts, sentBinaries, writtenBinaries,
              CloseMessage, TextMessage, BinaryMessage]
          · by_cases ht : e.t = TextMessage
            · simpa [writePump, handlerActs, hc, ht, TextMessage, BinaryMessage,
                CloseMessage, sentTexts, writtenTexts, sentBinaries, writtenBinaries] using ih
            · by_cases hb : e.t = BinaryMessage
              · simpa [writePump, handlerActs, hc, ht, hb, TextMessage, BinaryMessage,
                  CloseMessage, sentTexts, writtenTexts, sentBinaries, writtenBinaries] using ih
              · simpa [writePump, handlerActs, hc, ht, hb,
                  sentTexts, writtenTexts, sentBinaries, writtenBinaries] using ih

/-- C8 witness: the pump evaluated on a run that starts with a successfully
written close envelope. -/
theorem writePump_close_terminates_witness :
    writePump [PumpEvent.recv ⟨CloseMessage, []⟩ true,
        PumpEvent.recv ⟨TextMessage, [1]⟩ true] =
      [PumpAct.wrote ⟨CloseMessage, []⟩] :=
  writePump_close_terminates.1 ⟨CloseMessage, []⟩ [PumpEvent.recv ⟨TextMessage, [1]⟩ true] rfl

end Melody
